import Mathlib

/-!
Verification of the GoUP lead-generation pipeline.

Python strings are modelled as lists of Unicode code points (`List Nat`);
`str.lower` / `str.upper` are modelled on the ASCII range, which is the only
range the program's own patterns use.

The file is organised as: all definitions (the shallow embedding of the
program), then all theorems.
-/

namespace GoUP

/-! ## Python-string model -/

/-- Python `str` as a list of Unicode code points. -/
abbrev PyStr := List Nat

/-- Convert a Lean string literal into the code-point model. -/
def pyStr (s : String) : PyStr := s.data.map Char.toNat

/-- ASCII lower-casing of one code point (model of `str.lower`). -/
def lowerCode (n : Nat) : Nat := if 65 ≤ n ∧ n ≤ 90 then n + 32 else n

/-- Model of `str.lower`. -/
def pyLower (s : PyStr) : PyStr := s.map lowerCode

/-- ASCII upper-casing of one code point (model of `str.upper`). -/
def upperCode (n : Nat) : Nat := if 97 ≤ n ∧ n ≤ 122 then n - 32 else n

/-- Model of `str.upper`. -/
def pyUpper (s : PyStr) : PyStr := s.map upperCode

/-- Whitespace as stripped by Python's `str.strip()`. -/
def isWS (n : Nat) : Bool :=
  n == 32 || n == 9 || n == 10 || n == 13 || n == 11 || n == 12

/-- Model of `str.strip()`. -/
def pyStrip (s : PyStr) : PyStr :=
  ((s.dropWhile isWS).reverse.dropWhile isWS).reverse

/-- Whether `pat` begins `s` (model of `str.startswith`, and a helper for search). -/
def leadsWith : PyStr → PyStr → Bool
  | [], _ => true
  | _ :: _, [] => false
  | a :: pa, b :: pb => a == b && leadsWith pa pb

/-- Model of Python's `pat in s` (substring containment). -/
def pyContains (pat : PyStr) : PyStr → Bool
  | [] => pat.isEmpty
  | c :: rest => leadsWith pat (c :: rest) || pyContains pat rest

/-- Worker for `pyRemove`, structurally recursive on a fuel bound so that the
kernel can evaluate it; `fuel ≥ s.length` makes the fuel-exhaustion branch
dead. -/
def pyRemoveF (pat : PyStr) : Nat → PyStr → PyStr
  | _, [] => []
  | 0, s => s
  | fuel + 1, c :: rest =>
    if !pat.isEmpty && leadsWith pat (c :: rest) then
      pyRemoveF pat fuel (rest.drop (pat.length - 1))
    else
      c :: pyRemoveF pat fuel rest

/-- Model of `s.replace(pat, "")`: left-to-right, non-overlapping removal,
resuming after each removed occurrence, exactly as CPython does. -/
def pyRemove (pat : PyStr) (s : PyStr) : PyStr := pyRemoveF pat s.length s

/-- Model of `s.split(sep)[0]` for a single-character separator. -/
def pyTake (sep : Nat) : PyStr → PyStr
  | [] => []
  | c :: rest => if c == sep then [] else c :: pyTake sep rest

/-! ## Dedup cache (src/cache/deduplication.py) -/

/-- Model of `DeduplicationCache.normalize_url` (lines 55-89): lower-case and strip,
remove every occurrence of the scheme strings and of `"www."`, cut at the
first `/`, `?`, `#`, and strip again. -/
def normalize_url (url : PyStr) : PyStr :=
  let u0 := pyStrip (pyLower url)
  let u1 := pyRemove (pyStr "https://") u0
  let u2 := pyRemove (pyStr "http://") u1
  let u3 := pyRemove (pyStr "www.") u2
  let d1 := pyTake 47 u3
  let d2 := pyTake 63 d1
  let d3 := pyTake 35 d2
  pyStrip d3

/-- The in-memory cache dict: normalized domain → lead id.  (The stored
timestamp never influences control flow and is omitted.) -/
abbrev Cache := List (PyStr × PyStr)

/-- Dict lookup. -/
def cacheLookup (cache : Cache) (k : PyStr) : Option PyStr :=
  ((cache.find? (fun p => p.1 == k)).map Prod.snd)

/-- Dict upsert (`self._cache[domain] = {...}`). -/
def cacheSet (cache : Cache) (k v : PyStr) : Cache :=
  if (cache.find? (fun p => p.1 == k)).isSome then
    cache.map (fun p => if p.1 == k then (k, v) else p)
  else
    cache ++ [(k, v)]

/-- Model of `DeduplicationCache.is_processed`. -/
def is_processed (cache : Cache) (url : PyStr) : Bool :=
  (cacheLookup cache (normalize_url url)).isSome

/-- Model of `DeduplicationCache.get_lead_id`. -/
def get_lead_id (cache : Cache) (url : PyStr) : Option PyStr :=
  cacheLookup cache (normalize_url url)

/-- Model of `DeduplicationCache.mark_processed`. -/
def mark_processed (cache : Cache) (url lead_id : PyStr) : Cache :=
  cacheSet cache (normalize_url url) lead_id

/-! ## Data model (src/models.py)

Pydantic models become structures; optional fields become `Option`.  The two
timestamp fields of `Lead` are omitted (wall-clock time, irrelevant to every
claim); everything else is carried. -/

inductive Platform
  | shopify
  | custom
  | unknown
deriving DecidableEq, Repr

inductive Segment
  | epharmacy
  | sunglasses
  | eyewear
deriving DecidableEq, Repr

inductive LeadStatus
  | new
  | contacted
  | responded
  | qualified
  | disqualified
deriving DecidableEq, Repr

/-- Python truthiness of an optional string (`None` and `""` are falsy). -/
def truthyS : Option PyStr → Bool
  | none => false
  | some s => !s.isEmpty

/-- Python truthiness of an optional integer (`None` and `0` are falsy). -/
def truthyI : Option Int → Bool
  | none => false
  | some n => n != 0

structure Company where
  name : PyStr
  website : PyStr
  shopify_url : Option PyStr := none
  primary_domain : Option PyStr := none
  platform : Platform := .unknown
  industry : Option PyStr := none
  segment : Option Segment := none
  country : Option PyStr := none
  employee_count : Option Int := none
  linkedin_url : Option PyStr := none
  description : Option PyStr := none
  founded_year : Option Int := none
deriving DecidableEq, Repr

structure DecisionMaker where
  name : PyStr
  title : Option PyStr := none
  linkedin_url : Option PyStr := none
  email : Option PyStr := none
  email_verified : Bool := false
  phone : Option PyStr := none
  location : Option PyStr := none
deriving DecidableEq, Repr

/-- A value of the `scoring_breakdown` dict: the criterion entries hold `int`
weights, the exclusion entry holds the `bool` `True`. -/
inductive BreakdownVal
  | int_ (n : Int)
  | bool_ (b : Bool)
deriving DecidableEq, Repr

structure Qualification where
  score : Int := 0
  qualified : Bool := false
  fit_notes : Option PyStr := none
  scoring_breakdown : List (String × BreakdownVal) := []
deriving DecidableEq, Repr

structure OutreachCopy where
  linkedin_connection_request : Option PyStr := none
  linkedin_followup : Option PyStr := none
  email_subject : Option PyStr := none
  email_body : Option PyStr := none
  research_summary : Option PyStr := none
deriving DecidableEq, Repr

structure Lead where
  lead_id : PyStr
  company : Company
  decision_maker : Option DecisionMaker := none
  qualification : Qualification := {}
  outreach : Option OutreachCopy := none
  status : LeadStatus := .new
  source : Option PyStr := none
  notes : Option PyStr := none
deriving DecidableEq, Repr

/-! ## Constants (src/constants.py) -/

def TARGET_COUNTRIES : List PyStr :=
  [pyStr "US", pyStr "USA", pyStr "UK", pyStr "GB", pyStr "IE", pyStr "DE",
   pyStr "AT", pyStr "CH", pyStr "FR", pyStr "NL", pyStr "BE", pyStr "ES",
   pyStr "IT", pyStr "PT", pyStr "FI", pyStr "SE", pyStr "DK", pyStr "NO",
   pyStr "CA", pyStr "AU"]

def COMPANY_SIZE_MIN : Int := 10
def COMPANY_SIZE_SWEET_SPOT_MIN : Int := 20
def COMPANY_SIZE_SWEET_SPOT_MAX : Int := 50
def COMPANY_SIZE_MAX : Int := 200

def EXCLUSION_LIST : List PyStr :=
  [pyStr "glassesusa", pyStr "eyebuydirect", pyStr "zenni optical", pyStr "zenni",
   pyStr "sunglass hut", pyStr "lenscrafters", pyStr "warby parker",
   pyStr "specsavers", pyStr "fielmann", pyStr "apollo optik"]

def SCORING_WEIGHTS : List (String × Int) :=
  [("platform_shopify", 20), ("company_size_sweet_spot", 15),
   ("company_size_good", 10), ("target_geography", 15),
   ("ecommerce_presence", 10), ("no_rx_eyewear", 15),
   ("decision_maker_found", 10), ("email_verified", 5)]

/-- Model of `SCORING_WEIGHTS[key]` (every key the code looks up is present). -/
def scoringWeight (k : String) : Int :=
  ((SCORING_WEIGHTS.find? (fun p => p.1 == k)).map Prod.snd).getD 0

def QUALIFICATION_THRESHOLD : Int := 50

/-! ## Lead scorer (src/scoring/lead_scorer.py) -/

structure LeadScorer where
  threshold : Int
  /-- Field set by `__init__`: the exclusion entries, lower-cased. -/
  exclusion_list : List PyStr
deriving DecidableEq, Repr

/-- Model of `LeadScorer.__init__(qualification_threshold, exclusion_list)`; note the
Python `exclusion_list or EXCLUSION_LIST` (an empty list also falls back). -/
def mkLeadScorer (qualification_threshold : Int := QUALIFICATION_THRESHOLD)
    (exclusion_list : Option (List PyStr) := none) : LeadScorer :=
  let base :=
    match exclusion_list with
    | some l => if l.isEmpty then EXCLUSION_LIST else l
    | none => EXCLUSION_LIST
  { threshold := qualification_threshold, exclusion_list := base.map pyLower }

/-- Model of `LeadScorer._is_excluded`. -/
def isExcluded (sc : LeadScorer) (company_name : PyStr) : Bool :=
  sc.exclusion_list.any (fun e => pyContains e (pyLower company_name))

/-- Model of `LeadScorer._sells_prescription_eyewear`. -/
def sellsRxEyewear (company : Company) : Bool :=
  match company.description with
  | none => false
  | some desc =>
    if desc.isEmpty then false
    else
      [pyStr "prescription", pyStr "rx lenses", pyStr "optical lenses",
       pyStr "vision care"].any (fun t => pyContains t (pyLower desc))

/-- Model of `sep.join(xs)`. -/
def joinSep (sep : PyStr) : List PyStr → PyStr
  | [] => []
  | [x] => x
  | x :: xs => x ++ sep ++ joinSep sep xs

/-- Python `key in breakdown` on the breakdown dict. -/
def hasKey (breakdown : List (String × BreakdownVal)) (k : String) : Bool :=
  breakdown.any (fun p => p.1 == k)

/-- Model of `LeadScorer._generate_fit_notes` (the `total_score` argument is unused by
the Python body as well). -/
def generate_fit_notes (breakdown : List (String × BreakdownVal))
    (_total_score : Int) (qualified : Bool) : PyStr :=
  let strengths : List PyStr :=
    (if hasKey breakdown "platform_shopify" then [pyStr "Shopify platform"] else []) ++
    (if hasKey breakdown "company_size_sweet_spot" then [pyStr "ideal company size"] else []) ++
    (if hasKey breakdown "target_geography" then [pyStr "target geography"] else []) ++
    (if hasKey breakdown "decision_maker_found" then [pyStr "decision maker identified"] else [])
  let notes0 : List PyStr :=
    if strengths.isEmpty then []
    else [pyStr "Strengths: " ++ joinSep (pyStr ", ") strengths]
  let gaps : List PyStr :=
    (if hasKey breakdown "platform_shopify" then [] else [pyStr "not on Shopify"]) ++
    (if hasKey breakdown "decision_maker_found" then [] else [pyStr "no decision maker found"]) ++
    (if hasKey breakdown "email_verified" then [] else [pyStr "email not verified"])
  let notes : List PyStr :=
    notes0 ++ (if !gaps.isEmpty && !qualified
      then [pyStr "Gaps: " ++ joinSep (pyStr ", ") gaps] else [])
  if notes.isEmpty then pyStr "Scoring complete" else joinSep (pyStr ". ") notes

/-- One criterion of `LeadScorer.score`: when `cond` holds, record the weight
in the breakdown and add it to the running total. -/
def critStep (cond : Bool) (key : String)
    (acc : List (String × BreakdownVal) × Int) : List (String × BreakdownVal) × Int :=
  if cond then (acc.1 ++ [(key, .int_ (scoringWeight key))], acc.2 + scoringWeight key)
  else acc

/-- The company-size block of `LeadScorer.score`: an `if`/`elif` guarded by
`if company.employee_count:` (Python truthiness: `None` and `0` skip the
block), so the two size criteria are mutually exclusive. -/
def sizeStep (ec : Option Int)
    (acc : List (String × BreakdownVal) × Int) : List (String × BreakdownVal) × Int :=
  match ec with
  | none => acc
  | some n =>
    if n ≠ 0 then
      if COMPANY_SIZE_SWEET_SPOT_MIN ≤ n ∧ n ≤ COMPANY_SIZE_SWEET_SPOT_MAX then
        critStep true "company_size_sweet_spot" acc
      else if COMPANY_SIZE_MIN ≤ n ∧ n ≤ COMPANY_SIZE_MAX then
        critStep true "company_size_good" acc
      else acc
    else acc

/-- The full criteria accumulation of `LeadScorer.score` (lines 56-97), in the
code's evaluation order: platform, company size, geography, e-commerce
presence, no-RX-eyewear, decision maker found, email verified. -/
def scoreAcc (company : Company) (dm : Option DecisionMaker) :
    List (String × BreakdownVal) × Int :=
  critStep (match dm with | some d => d.email_verified | none => false) "email_verified"
    (critStep (match dm with | some d => !d.name.isEmpty | none => false) "decision_maker_found"
      (critStep (!sellsRxEyewear company) "no_rx_eyewear"
        (critStep (truthyS company.shopify_url || company.platform == .shopify) "ecommerce_presence"
          (critStep
            (truthyS company.country &&
              TARGET_COUNTRIES.contains (pyUpper ((company.country).getD [])))
            "target_geography"
            (sizeStep company.employee_count
              (critStep (company.platform == .shopify) "platform_shopify" ([], 0)))))))

/-- Model of `LeadScorer.score` (lines 29-113). -/
def score (sc : LeadScorer) (lead : Lead) : Lead :=
  if isExcluded sc lead.company.name then
    { lead with qualification :=
        { score := 0, qualified := false,
          fit_notes := some (pyStr "Excluded: Company is in exclusion list"),
          scoring_breakdown := [("excluded", .bool_ true)] } }
  else
    let acc := scoreAcc lead.company lead.decision_maker
    let qualified : Bool := sc.threshold ≤ acc.2
    { lead with qualification :=
        { score := acc.2, qualified := qualified,
          fit_notes := some (generate_fit_notes acc.1 acc.2 qualified),
          scoring_breakdown := acc.1 } }

/-- The integer weight recorded in one breakdown entry (the exclusion `bool`
entry carries no weight). -/
def breakdownWeight (p : String × BreakdownVal) : Int :=
  match p.2 with
  | .int_ n => n
  | .bool_ _ => 0

/-- Sum of the weights recorded in a breakdown. -/
def sumB (b : List (String × BreakdownVal)) : Int := (b.map breakdownWeight).sum

/-! ## Shopify verifier (src/collectors/shopify_verifier.py)

The two HTTP fetches of `verify` are supplied as `Except` values: `.error msg`
models `self.client.get` raising, `.ok` a returned response. -/

structure VerifyResult where
  is_shopify : Bool
  platform : Platform
  store_url : PyStr
  detection_method : Option PyStr
  error : Option PyStr
deriving DecidableEq, Repr

/-- Response of the `/products.json` fetch: HTTP status, and the outcome of
`response.json()` (`none` when parsing raises, otherwise whether the parsed
value contains a `"products"` key). -/
structure ProductsJsonResp where
  status : Nat
  json_products : Option Bool
deriving DecidableEq, Repr

/-- Response of the page fetch: HTTP status and body text. -/
structure PageResp where
  status : Nat
  body : PyStr
deriving DecidableEq, Repr

def SHOPIFY_INDICATORS : List PyStr :=
  [pyStr "cdn.shopify.com", pyStr "shopify.com/s/", pyStr "Shopify.theme",
   pyStr "shopify-section", pyStr "name=\"shopify-", pyStr "window.Shopify"]

/-- Model of `ShopifyVerifier._check_products_json`: the `try` swallows every
exception — a failed fetch yields `False`. -/
def checkProductsJson (fetch : Except PyStr ProductsJsonResp) : Bool :=
  match fetch with
  | .error _ => false
  | .ok r =>
    if r.status == 200 then
      match r.json_products with
      | some hasProducts => hasProducts
      | none => false
    else false

/-- The indicator loop of `_check_page_source`: first matching indicator wins,
the detection string is "source:" followed by the indicator. -/
def firstIndicator : List PyStr → PyStr → Option PyStr
  | [], _ => none
  | ind :: rest, low =>
    if pyContains (pyLower ind) low then some (pyStr "source:" ++ ind)
    else firstIndicator rest low

/-- Model of `ShopifyVerifier._check_page_source`: the `try` swallows every exception —
a failed fetch yields `None`. -/
def checkPageSource (fetch : Except PyStr PageResp) : Option PyStr :=
  match fetch with
  | .error _ => none
  | .ok r =>
    if r.status != 200 then none
    else
      let low := pyLower r.body
      match firstIndicator SHOPIFY_INDICATORS low with
      | some m => some m
      | none =>
        if pyContains (pyStr "content=\"shopify\"") low then some (pyStr "meta:shopify")
        else none

/-- The scheme normalization at the top of `verify`. -/
def ensureScheme (url : PyStr) : PyStr :=
  if leadsWith (pyStr "http://") url || leadsWith (pyStr "https://") url then url
  else pyStr "https://" ++ url

/-- Model of `ShopifyVerifier.verify` (lines 100-154).  The outer
`except httpx.RequestError` / `except Exception` handlers never fire on a
failed page fetch, because `_check_products_json` and `_check_page_source`
each swallow every exception internally and return `False` / `None`; the
fetch outcomes are therefore consumed inside the helpers and the fall-through
sets `Platform.CUSTOM` with `error = None`. -/
def verify (url : PyStr) (productsFetch : Except PyStr ProductsJsonResp)
    (pageFetch : Except PyStr PageResp) : VerifyResult :=
  let u := ensureScheme url
  if checkProductsJson productsFetch then
    { is_shopify := true, platform := .shopify, store_url := u,
      detection_method := some (pyStr "products.json"), error := none }
  else
    match checkPageSource pageFetch with
    | some m =>
      { is_shopify := true, platform := .shopify, store_url := u,
        detection_method := some m, error := none }
    | none =>
      { is_shopify := false, platform := .custom, store_url := u,
        detection_method := none, error := none }

/-- Model of `ShopifyVerifier.detect_country` (lines 352-382), with the three
detection sources supplied as oracle results; an `if country:` truthiness
test guards each fallthrough. -/
def detect_country (schemaRes currencyRes tldRes : Option PyStr) : Option PyStr :=
  if truthyS schemaRes then schemaRes
  else if truthyS currencyRes then currencyRes
  else if truthyS tldRes then tldRes
  else none

/-! ## Shared domain helpers (pipeline.py 379-384 and linkedin.py 415-420,
the identical `_extract_domain`) -/

/-- Model of `_extract_domain`: lower-case, remove scheme strings and every `"www."`,
cut at the first `/`. -/
def extractDomain (url : PyStr) : PyStr :=
  pyTake 47 (pyRemove (pyStr "www.")
    (pyRemove (pyStr "http://") (pyRemove (pyStr "https://") (pyLower url))))

def isAlphaCode (n : Nat) : Bool :=
  (65 ≤ n && n ≤ 90) || (97 ≤ n && n ≤ 122)

/-- Worker for `pyTitle`: the flag records whether the previous character was
alphabetic. -/
def pyTitleAux : Bool → PyStr → PyStr
  | _, [] => []
  | prevAlpha, c :: rest =>
    let c2 := if isAlphaCode c then (if prevAlpha then lowerCode c else upperCode c) else c
    c2 :: pyTitleAux (isAlphaCode c) rest

/-- Model of `str.title()` on the ASCII range. -/
def pyTitle (s : PyStr) : PyStr := pyTitleAux false s

/-- Model of `LeadGenerationPipeline._extract_company_name`: first dot-label of the
domain, title-cased. -/
def extractCompanyName (url : PyStr) : PyStr :=
  pyTitle (pyTake 46 (extractDomain url))

/-- Python `a or b` on optional strings: first truthy value, else `b`. -/
def orElseS (a b : Option PyStr) : Option PyStr := if truthyS a then a else b

/-- Python `a or b` on optional integers. -/
def orElseI (a b : Option Int) : Option Int := if truthyI a then a else b

/-! ## Hunter.io email finder (src/enrichment/email_finder.py) -/

/-- One entry of the `emails` array returned by the Hunter domain search. -/
structure HunterEmail where
  first_name : Option PyStr
  last_name : Option PyStr
  value : Option PyStr
  position : Option PyStr
  confidence : Int
deriving DecidableEq, Repr

/-- A decision-maker record built by `EmailFinder.domain_search`. -/
structure HunterDM where
  name : PyStr
  email : Option PyStr
  title : Option PyStr
  confidence : Int
deriving DecidableEq, Repr

def EXECUTIVE_TITLES : List PyStr :=
  [pyStr "ceo", pyStr "founder", pyStr "owner", pyStr "director",
   pyStr "president", pyStr "chief", pyStr "head"]

/-- The executive filter of `EmailFinder.domain_search` (lines 176-186): keep
the emails whose lower-cased position contains an executive keyword, building
`name` as the stripped `"first last"` string. -/
def hunterDMs (emails : List HunterEmail) : List HunterDM :=
  emails.filterMap (fun e =>
    let position := pyLower ((e.position).getD [])
    if EXECUTIVE_TITLES.any (fun t => pyContains t position) then
      some { name := pyStrip (((e.first_name).getD []) ++ pyStr " " ++ ((e.last_name).getD [])),
             email := e.value, title := e.position, confidence := e.confidence }
    else none)

/-- The `domain_search` result dict (company fields plus the emails array);
`decision_makers` is computed by `hunterDMs`. -/
structure HunterData where
  company_name : Option PyStr
  country : Option PyStr
  industry : Option PyStr
  emails : List HunterEmail
deriving DecidableEq, Repr

def hunterDecisionMakers (h : HunterData) : List HunterDM := hunterDMs h.emails

/-- Whitespace split (Python `str.split()` with no argument): worker. -/
def pySplitWSAux : PyStr → PyStr → List PyStr
  | [], cur => if cur.isEmpty then [] else [cur.reverse]
  | c :: rest, cur =>
    if isWS c then
      (if cur.isEmpty then pySplitWSAux rest [] else cur.reverse :: pySplitWSAux rest [])
    else pySplitWSAux rest (c :: cur)

/-- Model of `str.split()` (split on whitespace runs, no empty parts). -/
def pySplitWS (s : PyStr) : List PyStr := pySplitWSAux s []

/-- The Hunter email-finder response (the `data.email` / `data.score` pair);
`none` models both "no email found" and a failed request, which
`EmailFinder.find_email` maps to `None` alike. -/
structure EmailFindData where
  email : PyStr
  score : Option Int
deriving DecidableEq, Repr

/-- Model of `EmailFinder.find_email` name handling (lines 41-53): with no first name
the function returns `None` without querying; otherwise the API outcome
decides. -/
def findEmail (full_name : PyStr) (api : Option EmailFindData) : Option EmailFindData :=
  match pySplitWS (pyStrip full_name) with
  | [] => none
  | _ :: _ => api

/-- Model of `EmailFinder.enrich_decision_maker` (lines 200-228): skip when an email is
already present and verified; otherwise find an email for the name and set
`email_verified` from the deliverability check (`verify_email` outcome). -/
def enrichDecisionMaker (dm : DecisionMaker) (api : Option EmailFindData)
    (deliverable : Bool) : DecisionMaker :=
  if truthyS dm.email && dm.email_verified then dm
  else
    match findEmail dm.name api with
    | none => dm
    | some ed => { dm with email := some ed.email, email_verified := deliverable }

/-! ## LinkedIn enrichment (src/enrichment/linkedin.py) -/

/-- The dict returned by `LinkedInFinder.find_company` (the oracle boundary:
`find_company` performs network search plus name validation and returns
either this data or `None`).  `mainAddress_isDict` records the
`isinstance(main_address, dict)` test; `foundedParsed` is the result of the
guarded `int(str(founded)[:4])` parse (`none` when absent or failing). -/
structure LinkedInData where
  linkedInUrl : Option PyStr
  numberOfEmployees : Option Int
  employeeCount : Option Int
  employee_count_f : Option Int
  industryCap : Option PyStr
  industry : Option PyStr
  description : Option PyStr
  foundedParsed : Option Int
  mainAddress_isDict : Bool
  mainAddress_country : Option PyStr
  headquarters : Option PyStr
  website : Option PyStr
  companyUrl : Option PyStr
deriving DecidableEq, Repr

def INVALID_DOMAINS : List PyStr :=
  [pyStr "myshopify.com", pyStr "linkedin.com", pyStr "linktr.ee",
   pyStr "linktree.com", pyStr "facebook.com", pyStr "instagram.com",
   pyStr "twitter.com", pyStr "x.com", pyStr "youtube.com", pyStr "tiktok.com",
   pyStr "bit.ly", pyStr "goo.gl"]

/-- Worker for `pySplitLast` (fuel-structural like `pyRemoveF`): text of the
last chunk of `s.split(sep)`, scanning separators left-to-right without
overlap. -/
def pySplitLastF (sep : PyStr) : Nat → PyStr → PyStr → PyStr
  | _, acc, [] => acc
  | 0, acc, s => acc ++ s
  | fuel + 1, acc, c :: rest =>
    if !sep.isEmpty && leadsWith sep (c :: rest) then
      pySplitLastF sep fuel [] (rest.drop (sep.length - 1))
    else
      pySplitLastF sep fuel (acc ++ [c]) rest

/-- Model of `s.split(sep)[-1]`. -/
def pySplitLast (sep s : PyStr) : PyStr := pySplitLastF sep s.length [] s

/-- The field assignments of `enrich_company` before the country block
(lines 266-290): LinkedIn URL, employee count (first truthy of the three
field spellings, set only when truthy), industry, description, founded year.
Written as one record update; no other field (in particular not `country`)
is touched by these lines. -/
def enrichBasics (c : Company) (ld : LinkedInData) : Company :=
  let ec := orElseI ld.numberOfEmployees (orElseI ld.employeeCount ld.employee_count_f)
  { c with
    linkedin_url := ld.linkedInUrl,
    employee_count := if truthyI ec then ec else c.employee_count,
    industry := orElseS ld.industryCap ld.industry,
    description := orElseS ld.description c.description,
    founded_year :=
      match ld.foundedParsed with
      | some y => some y
      | none => c.founded_year }

/-- The country block of `enrich_company` (lines 292-310): when the country
is not yet truthy, take `mainAddress.addressCountry` (when `mainAddress` is a
dict), then, when still not truthy, the two-letter tail of the Headquarters
string, upper-cased. -/
def enrichCountry (c : Company) (ld : LinkedInData) : Company :=
  if !truthyS c.country then
    let c1 :=
      if ld.mainAddress_isDict then { c with country := ld.mainAddress_country } else c
    if !truthyS c1.country then
      let hq := (ld.headquarters).getD []
      if !hq.isEmpty && pyContains (pyStr ", ") hq then
        let potential := pyStrip (pySplitLast (pyStr ", ") hq)
        if potential.length == 2 then { c1 with country := some (pyUpper potential) }
        else c1
      else c1
    else c1
  else c

/-- The resulting `primary_domain` of the website block of `enrich_company`
(lines 312-332): the LinkedIn website domain when valid (not a social or
link-aggregator domain), otherwise the original-website domain when not
`myshopify.com`, otherwise the previous value.  These lines assign only
`primary_domain`. -/
def enrichedPrimaryDomain (c : Company) (ld : LinkedInData) : Option PyStr :=
  let linkedin_website := orElseS ld.website ld.companyUrl
  let pd1 :=
    if truthyS linkedin_website then
      let domain := extractDomain (linkedin_website.getD [])
      if !domain.isEmpty && !(INVALID_DOMAINS.any (fun d => pyContains d domain)) then
        some domain
      else c.primary_domain
    else c.primary_domain
  if !truthyS pd1 && !c.website.isEmpty then
    let original_domain := extractDomain c.website
    if !original_domain.isEmpty && !(pyContains (pyStr "myshopify.com") original_domain) then
      some original_domain
    else pd1
  else pd1

/-- Model of `LinkedInFinder.enrich_company` (lines 253-334) as a pure function of the
company and the `find_company` outcome: no data leaves the company untouched;
otherwise the basic fields, then the country block, then the primary-domain
block. -/
def enrichCompany (company : Company) (found : Option LinkedInData) : Company :=
  match found with
  | none => company
  | some ld =>
    let c1 := enrichCountry (enrichBasics company ld) ld
    { c1 with primary_domain := enrichedPrimaryDomain c1 ld }

/-- One employee record returned by the Apify employees scraper. -/
structure EmployeeRec where
  name : Option PyStr
  title : Option PyStr
  linkedInUrl : Option PyStr
  location : Option PyStr
deriving DecidableEq, Repr

/-- Model of `LinkedInFinder.find_decision_makers` (lines 378-413): empty without a
truthy LinkedIn URL; otherwise each employee record is mapped one-to-one to a
`DecisionMaker` (`find_employees` returns `[]` when the scraper call raises,
which the `employees` oracle covers). -/
def findDecisionMakersLI (company : Company) (employees : List EmployeeRec) :
    List DecisionMaker :=
  if !truthyS company.linkedin_url then []
  else
    employees.map (fun emp =>
      { name := (emp.name).getD (pyStr "Unknown"), title := emp.title,
        linkedin_url := emp.linkedInUrl, location := emp.location })

/-! ## Alternative sources (src/enrichment/alternative_sources.py) -/

def TEAM_PAGE_PATHS : List PyStr :=
  [pyStr "/pages/about", pyStr "/pages/about-us", pyStr "/pages/our-story",
   pyStr "/pages/team", pyStr "/pages/our-team", pyStr "/pages/meet-the-team",
   pyStr "/about", pyStr "/about-us", pyStr "/team", pyStr "/our-story"]

/-- The team-page loop of `find_decision_makers_from_website`: extend with
each page's scrape result, stopping once at least 3 are collected. -/
def gatherTeam (scrape : PyStr → List DecisionMaker) :
    List PyStr → List DecisionMaker → List DecisionMaker
  | [], acc => acc
  | p :: rest, acc =>
    let acc2 := acc ++ scrape p
    if 3 ≤ acc2.length then acc2 else gatherTeam scrape rest acc2

/-- The dedup loop: keep the first record for each lower-cased name. -/
def dedupByName : List DecisionMaker → List PyStr → List DecisionMaker
  | [], _ => []
  | dm :: rest, seen =>
    let nl := pyLower dm.name
    if seen.contains nl then dedupByName rest seen
    else dm :: dedupByName rest (nl :: seen)

/-- Model of `AlternativeSourceFinder.find_decision_makers_from_website` (lines
59-103): schema.org person first, then the team pages, then dedup by
lower-cased name and return at most 5.  The schema result and the per-path
scrapes are oracles. -/
def findDMsFromWebsite (schemaDM : Option DecisionMaker)
    (scrape : PyStr → List DecisionMaker) : List DecisionMaker :=
  let dms0 := match schemaDM with | some dm => [dm] | none => []
  let collected := gatherTeam scrape TEAM_PAGE_PATHS dms0
  (dedupByName collected []).take 5

/-! ## Pipeline orchestrator (src/pipeline.py) -/

/-- Model of `ProductValidator.validate_eyewear_store` outcome (the ratio only feeds
log lines along the pipeline path and is omitted). -/
structure EyewearValidation where
  is_eyewear_store : Bool
  rejection_reason : Option PyStr
deriving DecidableEq, Repr

/-- The outcomes of `ShopifyVerifier.extract_store_info`'s scraping, plus the
three country-detection sources; `extract_store_info` sets `country` to
`detect_country`, and `detect_country_from_tld` is a deterministic function
of the URL, so the pipeline's later TLD fallback reuses `tld_country`. -/
structure StoreFetch where
  name : Option PyStr
  description : Option PyStr
  email : Option PyStr
  social_linkedin : Option PyStr
  real_domain : Option PyStr
  schema_country : Option PyStr
  currency_country : Option PyStr
  tld_country : Option PyStr
deriving DecidableEq, Repr

/-- The `country` field of `extract_store_info` (line 493:
`info["country"] = self.detect_country(url)`). -/
def storeCountry (f : StoreFetch) : Option PyStr :=
  detect_country f.schema_country f.currency_country f.tld_country

/-- The decision-maker construction of pipeline Strategy 2 (lines 170-175):
`email_verified` is set from the Hunter confidence alone — no deliverability
check is involved at this stage. -/
def mkHunterDM (d : HunterDM) : DecisionMaker :=
  { name := d.name, title := d.title, email := d.email,
    email_verified := 80 < d.confidence }

/-- All collaborator outcomes consumed by one `process_url` call; `.error ()`
models the collaborator call raising (caught by the pipeline's `try`). -/
structure PipelineEnv where
  verification : VerifyResult
  validation : EyewearValidation
  store : StoreFetch
  lead_id : PyStr
  hunterOutcome : Except Unit HunterData
  linkedinFound : Except Unit (Option LinkedInData)
  liEmployees : Except Unit (List EmployeeRec)
  altSchemaDM : Option DecisionMaker
  altScrape : PyStr → List DecisionMaker
  altRaises : Bool
  emailApi : Option EmailFindData
  emailDeliverable : Bool
  emailRaises : Bool
  outreach : Except Unit OutreachCopy

inductive ExitStage
  | cacheHit
  | notShopify
  | notEyewear
  | completed
deriving DecidableEq, Repr

structure ProcessResult where
  lead : Option Lead
  cache : Cache
  exit : ExitStage
deriving DecidableEq, Repr

/-- Strategy 1 of the Step-7 cascade (lines 158-165): LinkedIn employees,
taking the top result; the pipeline `try` and a raising scraper both leave no
decision maker. -/
def dmStage1 (env : PipelineEnv) (company : Company) : Option DecisionMaker :=
  match env.liEmployees with
  | .ok emps =>
    match findDecisionMakersLI company emps with
    | d :: _ => some d
    | [] => none
  | .error _ => none

/-- Strategy 2 (lines 167-176): the first Hunter decision-maker record, when
the Hunter data is available and non-empty. -/
def dmStage2 (hunter_data : Option HunterData) : Option DecisionMaker :=
  match hunter_data with
  | some h =>
    match hunterDecisionMakers h with
    | d :: _ => some (mkHunterDM d)
    | [] => none
  | none => none

/-- Strategy 3 (lines 178-189): About/Team-page scraping under a `try`. -/
def dmStage3 (env : PipelineEnv) : Option DecisionMaker :=
  if env.altRaises then none
  else
    match findDMsFromWebsite env.altSchemaDM env.altScrape with
    | d :: _ => some d
    | [] => none

/-- Strategy 4 (lines 191-197): a minimal placeholder from the store contact
email. -/
def dmStage4 (env : PipelineEnv) : Option DecisionMaker :=
  if truthyS env.store.email then
    some { name := pyStr "Store Contact", email := env.store.email }
  else none

/-- The decision-maker cascade of `process_url` (Step 7, lines 155-197): four
strategies, each guarded by `if not lead.decision_maker`. -/
def dmCascade (env : PipelineEnv) (company : Company)
    (hunter_data : Option HunterData) : Option DecisionMaker :=
  match dmStage1 env company with
  | some d => some d
  | none =>
    match dmStage2 hunter_data with
    | some d => some d
    | none =>
      match dmStage3 env with
      | some d => some d
      | none => dmStage4 env

/-- The email-resolution step of `process_url` (Step 8, lines 199-215): skip
when the decision maker already carries a verified email, otherwise (with a
usable domain) run `enrich_decision_maker` under a `try`. -/
def emailStep (env : PipelineEnv) (domainOK : Bool) (d : DecisionMaker) : DecisionMaker :=
  if truthyS d.email && d.email_verified then d
  else if domainOK then
    (if env.emailRaises then d
     else enrichDecisionMaker d env.emailApi env.emailDeliverable)
  else d

/-- Step 4 of `process_url` (lines 84-113): the initial `Company`, built from
the verification result and the scraped store info (domain preference: real
domain, then the original domain when not `myshopify.com`). -/
def buildCompany (env : PipelineEnv) (url : PyStr) (segment : Option Segment) : Company :=
  let store_info := env.store
  let original_domain := extractDomain url
  let primary_domain : Option PyStr :=
    if truthyS store_info.real_domain then store_info.real_domain
    else if !(pyContains (pyStr "myshopify.com") original_domain) then some original_domain
    else none
  let company_name :=
    match store_info.name with
    | some n => if n.isEmpty then extractCompanyName url else n
    | none => extractCompanyName url
  let company0 : Company :=
    { name := company_name, website := url,
      shopify_url := if env.verification.is_shopify then some env.verification.store_url
        else none,
      primary_domain := primary_domain,
      platform := env.verification.platform,
      segment := segment,
      description := store_info.description,
      country := storeCountry store_info }
  if truthyS store_info.social_linkedin then
    { company0 with linkedin_url := store_info.social_linkedin }
  else company0

/-- The Step-5 domain: `company.primary_domain or self._extract_domain(url)`. -/
def pipelineDomain (company : Company) (url : PyStr) : PyStr :=
  match company.primary_domain with
  | some d => if d.isEmpty then extractDomain url else d
  | none => extractDomain url

/-- The guard `domain and "myshopify.com" not in domain`. -/
def domainUsable (domain : PyStr) : Bool :=
  !domain.isEmpty && !(pyContains (pyStr "myshopify.com") domain)

/-- The `hunter_data` variable of `process_url`: set only when the domain is
usable and the Hunter call does not raise. -/
def hunterData (env : PipelineEnv) (company : Company) (url : PyStr) : Option HunterData :=
  if domainUsable (pipelineDomain company url) then
    match env.hunterOutcome with
    | .ok h => some h
    | .error _ => none
  else none

/-- The Hunter fill-ins of Step 5 (lines 123-131): set-if-empty for company
name, country and industry. -/
def hunterFill (c : Company) (hunter_data : Option HunterData) : Company :=
  match hunter_data with
  | some h =>
    let c1 := if truthyS h.company_name && c.name.isEmpty
      then { c with name := (h.company_name).getD [] } else c
    let c2 := if truthyS h.country && !truthyS c1.country
      then { c1 with country := h.country } else c1
    if truthyS h.industry && !truthyS c2.industry
      then { c2 with industry := h.industry } else c2
  | none => c

/-- The country TLD fallback of `process_url` (lines 144-150). -/
def tldFallback (c : Company) (tld : Option PyStr) : Company :=
  if !truthyS c.country then
    (if truthyS tld then { c with country := tld } else c)
  else c

/-- The company after Step 5. -/
def companyAfterHunter (env : PipelineEnv) (url : PyStr) (segment : Option Segment) : Company :=
  hunterFill (buildCompany env url segment) (hunterData env (buildCompany env url segment) url)

/-- The company after Step 6 (LinkedIn enrichment under the pipeline `try`). -/
def companyAfterLinkedIn (env : PipelineEnv) (url : PyStr) (segment : Option Segment) : Company :=
  match env.linkedinFound with
  | .ok found => enrichCompany (companyAfterHunter env url segment) found
  | .error _ => companyAfterHunter env url segment

/-- The company reaching the scorer: Step 6 plus the TLD fallback. -/
def companyFinal (env : PipelineEnv) (url : PyStr) (segment : Option Segment) : Company :=
  tldFallback (companyAfterLinkedIn env url segment) env.store.tld_country

/-- Model of `LeadGenerationPipeline.process_url` (lines 39-237). -/
def processUrl (env : PipelineEnv) (cache : Cache) (url : PyStr)
    (segment : Option Segment) (skip_validation force : Bool)
    (sc : LeadScorer) : ProcessResult :=
  if !force && is_processed cache url then
    { lead := none, cache := cache, exit := .cacheHit }
  else if env.verification.platform ≠ Platform.shopify then
    { lead := none, cache := cache, exit := .notShopify }
  else if (!skip_validation && (segment == some .eyewear || segment == some .sunglasses))
      && !env.validation.is_eyewear_store then
    { lead := none, cache := cache, exit := .notEyewear }
  else
    let company3 := companyFinal env url segment
    let domainOK := domainUsable (pipelineDomain (buildCompany env url segment) url)
    let hunter_data := hunterData env (buildCompany env url segment) url
    -- Step 7: decision-maker cascade
    let dm := dmCascade env company3 hunter_data
    -- Step 8: email resolution
    let dm :=
      match dm with
      | some d => some (emailStep env domainOK d)
      | none => none
    let lead : Lead :=
      { lead_id := env.lead_id, company := company3, decision_maker := dm,
        source := some (pyStr "manual") }
    -- Step 9: scoring
    let lead := score sc lead
    -- Step 10: outreach copy for Shopify platforms, under a `try`
    let lead :=
      if lead.company.platform == Platform.shopify then
        match env.outreach with
        | .ok oc => { lead with outreach := some oc }
        | .error _ => lead
      else lead
    -- Commit the cache entry last
    { lead := some lead, cache := mark_processed cache url lead.lead_id,
      exit := .completed }

/-! ## Concrete collaborator environments used to evaluate the theorems -/

/-- All collaborators silent or raising; the verifier reports CUSTOM. -/
def envC7 : PipelineEnv :=
  { verification :=
      { is_shopify := false, platform := .custom,
        store_url := pyStr "https://x.com", detection_method := none, error := none },
    validation := { is_eyewear_store := false, rejection_reason := none },
    store :=
      { name := none, description := none, email := none, social_linkedin := none,
        real_domain := none, schema_country := none, currency_country := none,
        tld_country := none },
    lead_id := pyStr "abcd1234",
    hunterOutcome := .error (), linkedinFound := .error (), liEmployees := .error (),
    altSchemaDM := none, altScrape := fun _ => [], altRaises := true,
    emailApi := none, emailDeliverable := false, emailRaises := true,
    outreach := .error () }

/-- A Shopify store whose page markup yields a country (GB) while Hunter and
LinkedIn would offer different ones (US / FR). -/
def envC8 : PipelineEnv :=
  { verification :=
      { is_shopify := true, platform := .shopify,
        store_url := pyStr "https://myshop.com", detection_method := some (pyStr "products.json"),
        error := none },
    validation := { is_eyewear_store := true, rejection_reason := none },
    store :=
      { name := some (pyStr "Myshop"), description := none, email := none,
        social_linkedin := none, real_domain := none,
        schema_country := some (pyStr "GB"), currency_country := some (pyStr "US"),
        tld_country := some (pyStr "DE") },
    lead_id := pyStr "lead0001",
    hunterOutcome := .ok
      { company_name := none, country := some (pyStr "US"), industry := none, emails := [] },
    linkedinFound := .ok (some
      { linkedInUrl := none, numberOfEmployees := none, employeeCount := none,
        employee_count_f := none, industryCap := none, industry := none,
        description := none, foundedParsed := none, mainAddress_isDict := true,
        mainAddress_country := some (pyStr "FR"), headquarters := none,
        website := none, companyUrl := none }),
    liEmployees := .error (),
    altSchemaDM := none, altScrape := fun _ => [], altRaises := true,
    emailApi := none, emailDeliverable := false, emailRaises := true,
    outreach := .error () }

/-- A Shopify store on a `.co.uk` domain: the page markup and currency hint
yield nothing, the TLD heuristic yields GB, and LinkedIn reports US. -/
def envC1 : PipelineEnv :=
  { verification :=
      { is_shopify := true, platform := .shopify,
        store_url := pyStr "https://shop.example.co.uk", detection_method := none,
        error := none },
    validation := { is_eyewear_store := true, rejection_reason := none },
    store :=
      { name := some (pyStr "Example Shop"), description := none, email := none,
        social_linkedin := none, real_domain := none,
        schema_country := none, currency_country := none,
        tld_country := some (pyStr "GB") },
    lead_id := pyStr "lead0002",
    hunterOutcome := .error (),
    linkedinFound := .ok (some
      { linkedInUrl := none, numberOfEmployees := none, employeeCount := none,
        employee_count_f := none, industryCap := none, industry := none,
        description := none, foundedParsed := none, mainAddress_isDict := true,
        mainAddress_country := some (pyStr "US"), headquarters := none,
        website := none, companyUrl := none }),
    liEmployees := .error (),
    altSchemaDM := none, altScrape := fun _ => [], altRaises := true,
    emailApi := none, emailDeliverable := false, emailRaises := true,
    outreach := .error () }

/-- Like `envC1` but with no TLD country either: LinkedIn is the only source
that produces a country. -/
def envC1W : PipelineEnv :=
  { verification :=
      { is_shopify := true, platform := .shopify,
        store_url := pyStr "https://shop.example.com", detection_method := none,
        error := none },
    validation := { is_eyewear_store := true, rejection_reason := none },
    store :=
      { name := some (pyStr "Example Shop"), description := none, email := none,
        social_linkedin := none, real_domain := none,
        schema_country := none, currency_country := none, tld_country := none },
    lead_id := pyStr "lead0003",
    hunterOutcome := .error (),
    linkedinFound := .ok (some
      { linkedInUrl := none, numberOfEmployees := none, employeeCount := none,
        employee_count_f := none, industryCap := none, industry := none,
        description := none, foundedParsed := none, mainAddress_isDict := true,
        mainAddress_country := some (pyStr "US"), headquarters := none,
        website := none, companyUrl := none }),
    liEmployees := .error (),
    altSchemaDM := none, altScrape := fun _ => [], altRaises := true,
    emailApi := none, emailDeliverable := false, emailRaises := true,
    outreach := .error () }

/-- An environment whose LinkedIn employee search yields one employee. -/
def envC2 : PipelineEnv :=
  { verification :=
      { is_shopify := true, platform := .shopify,
        store_url := pyStr "https://acme.com", detection_method := none, error := none },
    validation := { is_eyewear_store := true, rejection_reason := none },
    store :=
      { name := some (pyStr "Acme"), description := none, email := some (pyStr "info@acme.com"),
        social_linkedin := none, real_domain := none,
        schema_country := none, currency_country := none, tld_country := none },
    lead_id := pyStr "lead0004",
    hunterOutcome := .error (),
    linkedinFound := .error (),
    liEmployees := .ok
      [{ name := some (pyStr "Jane Doe"), title := some (pyStr "CEO"),
         linkedInUrl := some (pyStr "https://linkedin.com/in/janedoe"), location := none }],
    altSchemaDM := none, altScrape := fun _ => [], altRaises := true,
    emailApi := none, emailDeliverable := false, emailRaises := true,
    outreach := .error () }

/-- The company seen by the decision-maker cascade in the `envC2` scenario. -/
def companyC2 : Company :=
  { name := pyStr "Acme", website := pyStr "acme.com",
    linkedin_url := some (pyStr "https://linkedin.com/company/acme") }

/-- Hunter domain-search data with one executive contact (confidence 95). -/
def hdC10 : HunterData :=
  { company_name := some (pyStr "Acme"), country := none, industry := none,
    emails :=
      [{ first_name := some (pyStr "Jane"), last_name := some (pyStr "Doe"),
         value := some (pyStr "jane@acme.com"), position := some (pyStr "CEO"),
         confidence := 95 }] }

/-- The decision-maker record `domain_search` builds from `hdC10`. -/
def dmHC10 : HunterDM :=
  { name := pyStr "Jane Doe", email := some (pyStr "jane@acme.com"),
    title := some (pyStr "CEO"), confidence := 95 }

/-- A minimal environment for exercising the email-resolution step. -/
def envC10 : PipelineEnv :=
  { verification :=
      { is_shopify := true, platform := .shopify,
        store_url := pyStr "https://acme.com", detection_method := none, error := none },
    validation := { is_eyewear_store := true, rejection_reason := none },
    store :=
      { name := some (pyStr "Acme"), description := none, email := none,
        social_linkedin := none, real_domain := none,
        schema_country := none, currency_country := none, tld_country := none },
    lead_id := pyStr "lead0005",
    hunterOutcome := .ok hdC10,
    linkedinFound := .error (),
    liEmployees := .error (),
    altSchemaDM := none, altScrape := fun _ => [], altRaises := true,
    emailApi := some { email := pyStr "other@acme.com", score := some 10 },
    emailDeliverable := false, emailRaises := false,
    outreach := .error () }

end GoUP

namespace GoUP

/-! ## Theorems -/

example : normalize_url (pyStr "HTTPS://WWW.Example.com/a?b=1") = pyStr "example.com" := by
  decide

example : normalize_url (pyStr "example.com") = pyStr "example.com" := by decide

example : normalize_url (pyStr "wwwww.w.") = pyStr "www." := by decide

example : normalize_url (pyStr "www.") = [] := by decide

/-! ### Helper lemmas about the Python-string model -/

theorem lowerCode_idem (n : Nat) : lowerCode (lowerCode n) = lowerCode n := by
  simp only [lowerCode]
  by_cases h : 65 ≤ n ∧ n ≤ 90
  · rw [if_pos h, if_neg (by omega)]
  · rw [if_neg h, if_neg h]

theorem mem_of_mem_pyTake {sep a : Nat} {s : PyStr} (h : a ∈ pyTake sep s) : a ∈ s := by
  induction s with
  | nil => simpa [pyTake] using h
  | cons c rest ih =>
    simp only [pyTake] at h
    split at h
    · simp at h
    · rcases List.mem_cons.mp h with rfl | h
      · exact List.mem_cons_self _ _
      · exact List.mem_cons_of_mem _ (ih h)

theorem not_mem_pyTake_self (sep : Nat) (s : PyStr) : sep ∉ pyTake sep s := by
  induction s with
  | nil => simp [pyTake]
  | cons c rest ih =>
    simp only [pyTake]
    split
    · simp
    · rename_i hc
      simp only [beq_iff_eq] at hc
      simp only [List.mem_cons, not_or]
      exact ⟨fun h => hc h.symm, ih⟩

theorem pyTake_eq_self {sep : Nat} {s : PyStr} (h : sep ∉ s) : pyTake sep s = s := by
  induction s with
  | nil => rfl
  | cons c rest ih =>
    have hc : (c == sep) = false := by
      simp only [List.mem_cons, not_or] at h
      simp only [beq_eq_false_iff_ne, ne_eq]
      exact fun e => h.1 e.symm
    simp only [pyTake, hc, Bool.false_eq_true, if_false, List.cons.injEq, true_and]
    exact ih fun hm => h (List.mem_cons_of_mem _ hm)

theorem mem_of_mem_pyStrip {a : Nat} {s : PyStr} (h : a ∈ pyStrip s) : a ∈ s := by
  simp only [pyStrip, List.mem_reverse] at h
  have h1 := (List.dropWhile_suffix (l := (s.dropWhile isWS).reverse) isWS).sublist.subset h
  rw [List.mem_reverse] at h1
  exact (List.dropWhile_suffix (l := s) isWS).sublist.subset h1

theorem mem_of_mem_pyRemoveF {pat : PyStr} {a : Nat} :
    ∀ {fuel : Nat} {s : PyStr}, a ∈ pyRemoveF pat fuel s → a ∈ s := by
  intro fuel
  induction fuel with
  | zero =>
    intro s h
    cases s with
    | nil => simpa [pyRemoveF] using h
    | cons c rest => simpa [pyRemoveF] using h
  | succ f ih =>
    intro s h
    cases s with
    | nil => simpa [pyRemoveF] using h
    | cons c rest =>
      simp only [pyRemoveF] at h
      split at h
      · exact List.mem_cons_of_mem _ (List.mem_of_mem_drop (ih h))
      · rcases List.mem_cons.mp h with rfl | h
        · exact List.mem_cons_self _ _
        · exact List.mem_cons_of_mem _ (ih h)

theorem mem_of_mem_pyRemove {pat : PyStr} {a : Nat} {s : PyStr}
    (h : a ∈ pyRemove pat s) : a ∈ s :=
  mem_of_mem_pyRemoveF h

theorem mem_of_leadsWith {pat s : PyStr} (h : leadsWith pat s = true) :
    ∀ a ∈ pat, a ∈ s := by
  induction pat generalizing s with
  | nil => simp
  | cons b pb ih =>
    cases s with
    | nil => simp [leadsWith] at h
    | cons c cs =>
      simp only [leadsWith, Bool.and_eq_true, beq_iff_eq] at h
      obtain ⟨rfl, h2⟩ := h
      intro a ha
      rcases List.mem_cons.mp ha with rfl | ha
      · exact List.mem_cons_self _ _
      · exact List.mem_cons_of_mem _ (ih h2 a ha)

theorem pyContains_mem {pat s : PyStr} (h : pyContains pat s = true) :
    ∀ a ∈ pat, a ∈ s := by
  induction s with
  | nil =>
    simp only [pyContains, List.isEmpty_iff] at h
    subst h
    simp
  | cons c rest ih =>
    simp only [pyContains, Bool.or_eq_true] at h
    rcases h with h | h
    · exact mem_of_leadsWith h
    · intro a ha
      exact List.mem_cons_of_mem _ (ih h a ha)

theorem pyContains_eq_false {pat s : PyStr} {b : Nat} (hb : b ∈ pat) (hs : b ∉ s) :
    pyContains pat s = false := by
  by_contra hne
  have ht : pyContains pat s = true := by
    revert hne
    cases pyContains pat s <;> simp
  exact hs (pyContains_mem ht b hb)

theorem pyRemoveF_eq_self {pat : PyStr} :
    ∀ {fuel : Nat} {s : PyStr}, pyContains pat s = false → pyRemoveF pat fuel s = s := by
  intro fuel
  induction fuel with
  | zero =>
    intro s _
    cases s <;> simp [pyRemoveF]
  | succ f ih =>
    intro s h
    cases s with
    | nil => simp [pyRemoveF]
    | cons c rest =>
      simp only [pyContains, Bool.or_eq_false_iff] at h
      simp only [pyRemoveF, h.1, Bool.and_false, Bool.false_eq_true, if_false,
        List.cons.injEq, true_and]
      exact ih h.2

theorem pyRemove_eq_self {pat s : PyStr} (h : pyContains pat s = false) :
    pyRemove pat s = s :=
  pyRemoveF_eq_self h

theorem pyLower_eq_self {s : PyStr} (h : ∀ a ∈ s, lowerCode a = a) : pyLower s = s := by
  simp only [pyLower]
  rw [List.map_congr_left h]
  simp

theorem dropWhile_dropWhile {α : Type} (p : α → Bool) (l : List α) :
    (l.dropWhile p).dropWhile p = l.dropWhile p := by
  induction l with
  | nil => rfl
  | cons c rest ih =>
    simp only [List.dropWhile_cons]
    split
    · exact ih
    · rename_i hc
      simp [List.dropWhile_cons, hc]

theorem dropWhile_eq_self_of_head {α : Type} (p : α → Bool) (l : List α)
    (h : ∀ a, l.head? = some a → p a = false) : l.dropWhile p = l := by
  cases l with
  | nil => rfl
  | cons c rest => simp [List.dropWhile_cons, h c rfl]

theorem pyStrip_idem (s : PyStr) : pyStrip (pyStrip s) = pyStrip s := by
  simp only [pyStrip]
  have h1 : ((s.dropWhile isWS).reverse.dropWhile isWS).reverse.dropWhile isWS
      = ((s.dropWhile isWS).reverse.dropWhile isWS).reverse := by
    apply dropWhile_eq_self_of_head
    intro a ha
    rw [List.head?_reverse] at ha
    obtain ⟨pre, hpre⟩ := List.dropWhile_suffix (l := (s.dropWhile isWS).reverse) isWS
    have h2 : ((s.dropWhile isWS).reverse).getLast? = some a := by
      rw [← hpre, List.getLast?_append, ha]
      rfl
    rw [List.getLast?_reverse] at h2
    have h3 := List.head?_dropWhile_not isWS s
    rw [h2] at h3
    exact h3
  rw [h1, List.reverse_reverse, dropWhile_dropWhile]

/-! ### Shape of `normalize_url`'s output -/

theorem normalize_url_lower_fixed (x : PyStr) :
    ∀ a ∈ normalize_url x, lowerCode a = a := by
  intro a ha
  simp only [normalize_url] at ha
  have h8 := mem_of_mem_pyStrip (mem_of_mem_pyRemove (mem_of_mem_pyRemove
    (mem_of_mem_pyRemove (mem_of_mem_pyTake (mem_of_mem_pyTake
      (mem_of_mem_pyTake (mem_of_mem_pyStrip ha)))))))
  obtain ⟨b, _, rfl⟩ := List.mem_map.mp h8
  exact lowerCode_idem b

theorem normalize_url_no_slash (x : PyStr) : (47 : Nat) ∉ normalize_url x := by
  intro ha
  simp only [normalize_url] at ha
  exact not_mem_pyTake_self 47 _
    (mem_of_mem_pyTake (mem_of_mem_pyTake (mem_of_mem_pyStrip ha)))

theorem normalize_url_no_query (x : PyStr) : (63 : Nat) ∉ normalize_url x := by
  intro ha
  simp only [normalize_url] at ha
  exact not_mem_pyTake_self 63 _ (mem_of_mem_pyTake (mem_of_mem_pyStrip ha))

theorem normalize_url_no_hash (x : PyStr) : (35 : Nat) ∉ normalize_url x := by
  intro ha
  simp only [normalize_url] at ha
  exact not_mem_pyTake_self 35 _ (mem_of_mem_pyStrip ha)

theorem normalize_url_stripped (x : PyStr) :
    pyStrip (normalize_url x) = normalize_url x := by
  simp only [normalize_url]
  exact pyStrip_idem _

/-- C3 (counterexample): `normalize_url` is not idempotent on every string.
Removing every occurrence of `"www."` can splice a fresh `"www."` together:
`normalize_url "wwwww.w." = "www."` while `normalize_url "www." = ""`. -/
theorem C3_counterexample :
    normalize_url (normalize_url (pyStr "wwwww.w.")) ≠ normalize_url (pyStr "wwwww.w.") := by
  decide

/-- C3 (amended): the cache's URL normalization is idempotent on every input
whose normalized form does not contain `"www."` as a substring (the code
removes every occurrence of `"www."`, not only a leading label, and that
removal can recreate the substring — the sole source of non-idempotence). -/
theorem C3_normalize_url_idem (x : PyStr)
    (h : pyContains (pyStr "www.") (normalize_url x) = false) :
    normalize_url (normalize_url x) = normalize_url x := by
  have hlow : pyLower (normalize_url x) = normalize_url x :=
    pyLower_eq_self (normalize_url_lower_fixed x)
  have hstrip := normalize_url_stripped x
  have h47 := normalize_url_no_slash x
  have h63 := normalize_url_no_query x
  have h35 := normalize_url_no_hash x
  have hhttps : pyRemove (pyStr "https://") (normalize_url x) = normalize_url x :=
    pyRemove_eq_self (pyContains_eq_false (show (47 : Nat) ∈ pyStr "https://" by decide) h47)
  have hhttp : pyRemove (pyStr "http://") (normalize_url x) = normalize_url x :=
    pyRemove_eq_self (pyContains_eq_false (show (47 : Nat) ∈ pyStr "http://" by decide) h47)
  have hwww : pyRemove (pyStr "www.") (normalize_url x) = normalize_url x :=
    pyRemove_eq_self h
  set y := normalize_url x with hy
  show pyStrip (pyTake 35 (pyTake 63 (pyTake 47 (pyRemove (pyStr "www.")
    (pyRemove (pyStr "http://") (pyRemove (pyStr "https://") (pyStrip (pyLower y)))))))) = y
  rw [hlow, hstrip, hhttps, hhttp, hwww, pyTake_eq_self h47, pyTake_eq_self h63,
    pyTake_eq_self h35, hstrip]

/-- C3 (witness): the amended idempotence applied at a concrete URL. -/
theorem C3_normalize_url_idem_witness :
    pyContains (pyStr "www.") (normalize_url (pyStr "HTTPS://WWW.Example.com/a?b=1")) = false ∧
    normalize_url (normalize_url (pyStr "HTTPS://WWW.Example.com/a?b=1")) =
      normalize_url (pyStr "HTTPS://WWW.Example.com/a?b=1") :=
  ⟨by decide, C3_normalize_url_idem _ (by decide)⟩

/-! ### Scorer lemmas -/

theorem scoringWeight_nonneg (k : String) : 0 ≤ scoringWeight k := by
  unfold scoringWeight
  cases hf : SCORING_WEIGHTS.find? (fun p => p.1 == k) with
  | none => simp
  | some p =>
    have hmem := List.mem_of_find?_eq_some hf
    have hp : 0 ≤ p.2 := by
      simp only [SCORING_WEIGHTS, List.mem_cons, List.not_mem_nil, or_false] at hmem
      rcases hmem with rfl | rfl | rfl | rfl | rfl | rfl | rfl | rfl <;> decide
    simpa using hp

theorem critStep_sum (cond : Bool) (key : String)
    (acc : List (String × BreakdownVal) × Int) (h : acc.2 = sumB acc.1) :
    (critStep cond key acc).2 = sumB (critStep cond key acc).1 := by
  unfold critStep
  split
  · simp only [sumB, List.map_append, List.sum_append, List.map_cons, List.map_nil,
      List.sum_cons, List.sum_nil, breakdownWeight] at h ⊢
    omega
  · exact h

theorem critStep_le (cond : Bool) (key : String)
    (acc : List (String × BreakdownVal) × Int) :
    acc.2 ≤ (critStep cond key acc).2 ∧
    (critStep cond key acc).2 ≤ acc.2 + scoringWeight key := by
  have hw := scoringWeight_nonneg key
  unfold critStep
  split
  · exact ⟨by omega, by omega⟩
  · exact ⟨le_refl _, by omega⟩

theorem sizeStep_sum (ec : Option Int) (acc : List (String × BreakdownVal) × Int)
    (h : acc.2 = sumB acc.1) :
    (sizeStep ec acc).2 = sumB (sizeStep ec acc).1 := by
  cases ec with
  | none => exact h
  | some n =>
    simp only [sizeStep]
    split
    · split
      · exact critStep_sum _ _ _ h
      · split
        · exact critStep_sum _ _ _ h
        · exact h
    · exact h

theorem sizeStep_le (ec : Option Int) (acc : List (String × BreakdownVal) × Int) :
    acc.2 ≤ (sizeStep ec acc).2 ∧ (sizeStep ec acc).2 ≤ acc.2 + 25 := by
  have hsw : scoringWeight "company_size_sweet_spot" = 15 := by decide
  have hg : scoringWeight "company_size_good" = 10 := by decide
  cases ec with
  | none =>
    simp only [sizeStep]
    exact ⟨le_refl _, by omega⟩
  | some n =>
    simp only [sizeStep]
    split
    · split
      · obtain ⟨l, r⟩ := critStep_le true "company_size_sweet_spot" acc
        rw [hsw] at r
        exact ⟨l, by omega⟩
      · split
        · obtain ⟨l, r⟩ := critStep_le true "company_size_good" acc
          rw [hg] at r
          exact ⟨l, by omega⟩
        · exact ⟨le_refl _, by omega⟩
    · exact ⟨le_refl _, by omega⟩

theorem scoreAcc_sum (c : Company) (dm : Option DecisionMaker) :
    (scoreAcc c dm).2 = sumB (scoreAcc c dm).1 := by
  unfold scoreAcc
  apply critStep_sum
  apply critStep_sum
  apply critStep_sum
  apply critStep_sum
  apply critStep_sum
  apply sizeStep_sum
  apply critStep_sum
  simp [sumB]

theorem scoreAcc_bounds (c : Company) (dm : Option DecisionMaker) :
    0 ≤ (scoreAcc c dm).2 ∧ (scoreAcc c dm).2 ≤ 100 := by
  have w1 : scoringWeight "platform_shopify" = 20 := by decide
  have w3 : scoringWeight "target_geography" = 15 := by decide
  have w4 : scoringWeight "ecommerce_presence" = 10 := by decide
  have w5 : scoringWeight "no_rx_eyewear" = 15 := by decide
  have w6 : scoringWeight "decision_maker_found" = 10 := by decide
  have w7 : scoringWeight "email_verified" = 5 := by decide
  unfold scoreAcc
  generalize (match dm with | some d => !d.name.isEmpty | none => false) = cond6
  generalize (match dm with | some d => d.email_verified | none => false) = cond7
  set b1 := critStep (c.platform == Platform.shopify) "platform_shopify" ([], 0) with hb1
  set b2 := sizeStep c.employee_count b1 with hb2
  set b3 := critStep
    (truthyS c.country && TARGET_COUNTRIES.contains (pyUpper ((c.country).getD [])))
    "target_geography" b2 with hb3
  set b4 := critStep (truthyS c.shopify_url || c.platform == Platform.shopify)
    "ecommerce_presence" b3 with hb4
  set b5 := critStep (!sellsRxEyewear c) "no_rx_eyewear" b4 with hb5
  set b6 := critStep cond6 "decision_maker_found" b5 with hb6
  set b7 := critStep cond7 "email_verified" b6 with hb7
  have h0 : (([], 0) : List (String × BreakdownVal) × Int).2 = 0 := rfl
  obtain ⟨l1, r1⟩ := critStep_le (c.platform == Platform.shopify) "platform_shopify" ([], 0)
  rw [← hb1] at l1 r1
  rw [w1] at r1
  obtain ⟨l2, r2⟩ := sizeStep_le c.employee_count b1
  rw [← hb2] at l2 r2
  obtain ⟨l3, r3⟩ := critStep_le
    (truthyS c.country && TARGET_COUNTRIES.contains (pyUpper ((c.country).getD [])))
    "target_geography" b2
  rw [← hb3] at l3 r3
  rw [w3] at r3
  obtain ⟨l4, r4⟩ := critStep_le (truthyS c.shopify_url || c.platform == Platform.shopify)
    "ecommerce_presence" b3
  rw [← hb4] at l4 r4
  rw [w4] at r4
  obtain ⟨l5, r5⟩ := critStep_le (!sellsRxEyewear c) "no_rx_eyewear" b4
  rw [← hb5] at l5 r5
  rw [w5] at r5
  obtain ⟨l6, r6⟩ := critStep_le cond6 "decision_maker_found" b5
  rw [← hb6] at l6 r6
  rw [w6] at r6
  obtain ⟨l7, r7⟩ := critStep_le cond7 "email_verified" b6
  rw [← hb7] at l7 r7
  rw [w7] at r7
  constructor <;> omega

/-- C4: a lead whose company name contains an exclusion-list entry as a
case-insensitive substring scores 0, is not qualified, and no further
criteria are evaluated — the whole qualification is the fixed "excluded"
record, for every value of the other lead fields. -/
theorem C4_exclusion_short_circuit (t : Int) (excl : Option (List PyStr)) (lead : Lead)
    (e : PyStr)
    (he : e ∈ (match excl with
      | some l => if l.isEmpty then EXCLUSION_LIST else l
      | none => EXCLUSION_LIST))
    (hc : pyContains (pyLower e) (pyLower lead.company.name) = true) :
    score (mkLeadScorer t excl) lead =
      { lead with qualification :=
          { score := 0, qualified := false,
            fit_notes := some (pyStr "Excluded: Company is in exclusion list"),
            scoring_breakdown := [("excluded", .bool_ true)] } } := by
  have hex : isExcluded (mkLeadScorer t excl) lead.company.name = true := by
    unfold isExcluded mkLeadScorer
    rw [List.any_eq_true]
    exact ⟨pyLower e, List.mem_map_of_mem pyLower he, hc⟩
  unfold score
  rw [if_pos hex]

/-- C4 (witness): a concrete excluded lead with otherwise perfect fields. -/
theorem C4_exclusion_short_circuit_witness :
    (pyStr "zenni" ∈ EXCLUSION_LIST ∧
      pyContains (pyLower (pyStr "zenni")) (pyLower (pyStr "Zenni Optical Store")) = true) ∧
    (score (mkLeadScorer 50 none)
        { lead_id := pyStr "w1",
          company :=
            { name := pyStr "Zenni Optical Store", website := pyStr "zenni.com",
              platform := .shopify, country := some (pyStr "US"),
              employee_count := some 30,
              shopify_url := some (pyStr "https://zenni.com") },
          decision_maker := some { name := pyStr "Jane Doe", email_verified := true } }).qualification =
      { score := 0, qualified := false,
        fit_notes := some (pyStr "Excluded: Company is in exclusion list"),
        scoring_breakdown := [("excluded", .bool_ true)] } := by
  constructor
  · exact ⟨by decide, by decide⟩
  · rw [C4_exclusion_short_circuit 50 none _ (pyStr "zenni") (by decide) (by decide)]

/-- C5: the qualification score is a non-negative integer, equal to the sum of
the weights recorded in the scoring breakdown (the two company-size criteria
being mutually exclusive by construction of the size block), and bounded by
the sum of all configured scoring weights. -/
theorem C5_score_invariants (sc : LeadScorer) (lead : Lead) :
    0 ≤ (score sc lead).qualification.score ∧
    (score sc lead).qualification.score =
      sumB (score sc lead).qualification.scoring_breakdown ∧
    (score sc lead).qualification.score ≤ (SCORING_WEIGHTS.map Prod.snd).sum := by
  unfold score
  split
  · refine ⟨by simp, ?_, ?_⟩
    · simp [sumB, breakdownWeight]
    · simp only []
      decide
  · obtain ⟨hn, hb⟩ := scoreAcc_bounds lead.company lead.decision_maker
    have hs := scoreAcc_sum lead.company lead.decision_maker
    have h100 : (SCORING_WEIGHTS.map Prod.snd).sum = 100 := by decide
    rw [h100]
    refine ⟨?_, ?_, ?_⟩
    · simpa using hn
    · simpa using hs
    · simpa using hb

/-- C6: for a non-excluded lead the qualified flag is set exactly when the
total score reaches the configured threshold; hitting the threshold exactly
qualifies, one point below does not. -/
theorem C6_threshold_boundary (sc : LeadScorer) (lead : Lead)
    (h : isExcluded sc lead.company.name = false) :
    ((score sc lead).qualification.qualified = true ↔
      sc.threshold ≤ (score sc lead).qualification.score) ∧
    ((score sc lead).qualification.score = sc.threshold →
      (score sc lead).qualification.qualified = true) ∧
    ((score sc lead).qualification.score = sc.threshold - 1 →
      (score sc lead).qualification.qualified = false) := by
  unfold score
  rw [if_neg (by simp [h])]
  refine ⟨?_, ?_, ?_⟩
  · simp
  · intro he
    simp only at he ⊢
    simp at he ⊢
    omega
  · intro he
    simp only at he ⊢
    simp at he ⊢
    omega

/-- C6 (witness): a concrete non-excluded lead scoring exactly the default
threshold of 50 (Shopify 20 + e-commerce 10 + no-RX 15 + verified email 5)
is qualified. -/
theorem C6_threshold_boundary_witness :
    isExcluded (mkLeadScorer 50 none) (pyStr "Acme Widgets") = false ∧
    ((score (mkLeadScorer 50 none)
        { lead_id := pyStr "w2",
          company := { name := pyStr "Acme Widgets", website := pyStr "acme.com",
                       platform := .shopify },
          decision_maker := some { name := [], email_verified := true } }).qualification.qualified
      = true ↔
      (50 : Int) ≤ (score (mkLeadScorer 50 none)
        { lead_id := pyStr "w2",
          company := { name := pyStr "Acme Widgets", website := pyStr "acme.com",
                       platform := .shopify },
          decision_maker := some { name := [], email_verified := true } }).qualification.score) := by
  constructor
  · decide
  · exact (C6_threshold_boundary (mkLeadScorer 50 none) _ (by decide)).1

/-! ### Verifier theorems (C9) -/

/-- C9 (counterexample): when both underlying fetches raise, `verify` does not
return platform UNKNOWN with the error message; the detection helpers swallow
the exception, so it falls through to platform CUSTOM with `error = None`. -/
theorem C9_counterexample :
    verify (pyStr "example.com") (.error (pyStr "connection refused"))
        (.error (pyStr "connection refused")) =
      { is_shopify := false, platform := .custom,
        store_url := pyStr "https://example.com",
        detection_method := none, error := none } := by
  decide

/-- C9 (amended): `verify` is total — for every URL and fetch outcome it
returns the five-field record, with the scheme-normalized store URL,
`error = None`, and `is_shopify` true exactly for the SHOPIFY classification;
in particular when both fetches raise the exceptions are swallowed inside the
helpers and the result is platform CUSTOM with `is_shopify = false` and
`error = None` (the UNKNOWN-with-error path would need an exception outside
the helpers, which the fetches cannot cause). -/
theorem C9_verify_total (url : PyStr) (pf : Except PyStr ProductsJsonResp)
    (pg : Except PyStr PageResp) :
    (verify url pf pg).error = none ∧
    (verify url pf pg).store_url = ensureScheme url ∧
    ((verify url pf pg).is_shopify = true ↔ (verify url pf pg).platform = Platform.shopify) ∧
    ((∃ e, pf = .error e) → (∃ e, pg = .error e) →
      verify url pf pg =
        { is_shopify := false, platform := .custom, store_url := ensureScheme url,
          detection_method := none, error := none }) := by
  refine ⟨?_, ?_, ?_, ?_⟩
  · unfold verify
    split
    · rfl
    · split <;> rfl
  · unfold verify
    split
    · rfl
    · split <;> rfl
  · unfold verify
    split
    · simp
    · split <;> simp
  · rintro ⟨e1, rfl⟩ ⟨e2, rfl⟩
    rfl

/-- C9 (witness): the amended statement applied to one raising fetch pair. -/
theorem C9_verify_total_witness :
    verify (pyStr "shop.example") (.error (pyStr "boom")) (.error (pyStr "boom")) =
      { is_shopify := false, platform := .custom,
        store_url := ensureScheme (pyStr "shop.example"),
        detection_method := none, error := none } :=
  (C9_verify_total _ _ _).2.2.2 ⟨_, rfl⟩ ⟨_, rfl⟩

/-! ### Pipeline helper lemmas -/

theorem score_company (sc : LeadScorer) (l : Lead) : (score sc l).company = l.company := by
  unfold score
  split <;> rfl

/-- Every lead produced by `processUrl` carries `companyFinal`. -/
theorem processUrl_lead_company (env : PipelineEnv) (cache : Cache) (url : PyStr)
    (segment : Option Segment) (sv force : Bool) (sc : LeadScorer) (l : Lead)
    (hl : (processUrl env cache url segment sv force sc).lead = some l) :
    l.company = companyFinal env url segment := by
  unfold processUrl at hl
  split at hl
  · simp at hl
  · split at hl
    · simp at hl
    · split at hl
      · simp at hl
      · simp only [Option.some.injEq] at hl
        subst hl
        split
        · split
          · simp [score_company]
          · simp [score_company]
        · simp [score_company]

/-! ### C7: non-target platform -/

/-- C7: when the verifier classifies the candidate as a non-Shopify platform,
`process_url` produces no lead and writes nothing to the deduplication
cache; whenever the cache gate was passed, the exit is exactly the
verification step. -/
theorem C7_non_target_platform (env : PipelineEnv) (cache : Cache) (url : PyStr)
    (segment : Option Segment) (skip_validation force : Bool) (sc : LeadScorer)
    (h : env.verification.platform ≠ Platform.shopify) :
    (processUrl env cache url segment skip_validation force sc).lead = none ∧
    (processUrl env cache url segment skip_validation force sc).cache = cache ∧
    ((!force && is_processed cache url) = false →
      (processUrl env cache url segment skip_validation force sc).exit =
        ExitStage.notShopify) := by
  unfold processUrl
  split
  · rename_i hcond
    refine ⟨rfl, rfl, fun hc => ?_⟩
    rw [hc] at hcond
    simp at hcond
  · exact ⟨rfl, rfl, fun _ => rfl⟩

/-- C7 (witness): the theorem applied to a concrete custom-platform store. -/
theorem C7_non_target_platform_witness :
    (processUrl envC7 [] (pyStr "x.com") none false false (mkLeadScorer 50 none)).lead = none ∧
    (processUrl envC7 [] (pyStr "x.com") none false false (mkLeadScorer 50 none)).cache = [] ∧
    (processUrl envC7 [] (pyStr "x.com") none false false (mkLeadScorer 50 none)).exit =
      ExitStage.notShopify := by
  have h := C7_non_target_platform envC7 [] (pyStr "x.com") none false false
    (mkLeadScorer 50 none) (by decide)
  exact ⟨h.1, h.2.1, h.2.2 (by decide)⟩

/-! ### Country set-if-empty lemmas -/

theorem buildCompany_country (env : PipelineEnv) (url : PyStr) (segment : Option Segment) :
    (buildCompany env url segment).country = storeCountry env.store := by
  cases hsl : truthyS env.store.social_linkedin <;> simp [buildCompany, hsl]

theorem hunterFill_country_truthy (c : Company) (hd : Option HunterData)
    (h : truthyS c.country = true) : (hunterFill c hd).country = c.country := by
  cases hd with
  | none => rfl
  | some hd =>
    simp only [hunterFill]
    split_ifs <;> simp_all

/-- Moreover `hunterFill` leaves the country alone when Hunter has no truthy
country to offer. -/
theorem hunterFill_country_skip (c : Company) (hd : Option HunterData)
    (h : ∀ h', hd = some h' → truthyS h'.country = false) :
    (hunterFill c hd).country = c.country := by
  cases hd with
  | none => rfl
  | some hd =>
    have hc := h hd rfl
    simp only [hunterFill]
    split_ifs <;> simp_all

theorem enrichBasics_country (c : Company) (ld : LinkedInData) :
    (enrichBasics c ld).country = c.country := rfl

theorem enrichCountry_truthy (c : Company) (ld : LinkedInData)
    (h : truthyS c.country = true) : enrichCountry c ld = c := by
  unfold enrichCountry
  rw [h]
  simp

theorem enrichCompany_country_truthy (c : Company) (found : Option LinkedInData)
    (h : truthyS c.country = true) : (enrichCompany c found).country = c.country := by
  cases found with
  | none => rfl
  | some ld =>
    show (enrichCountry (enrichBasics c ld) ld).country = c.country
    rw [enrichCountry_truthy _ ld (by rw [enrichBasics_country]; exact h)]
    exact enrichBasics_country c ld

theorem tldFallback_country_truthy (c : Company) (t : Option PyStr)
    (h : truthyS c.country = true) : tldFallback c t = c := by
  unfold tldFallback
  rw [h]
  simp

/-- C8: a country set (non-empty) before the later enrichment sources run is
never overwritten — the store-detected country survives to scoring
unchanged, and each individual later source (Hunter fill-in, LinkedIn
enrichment, TLD fallback) preserves any truthy country. -/
theorem C8_country_set_if_empty (env : PipelineEnv) (cache : Cache) (url : PyStr)
    (segment : Option Segment) (sv force : Bool) (sc : LeadScorer)
    (hts : truthyS (storeCountry env.store) = true) :
    (∀ l, (processUrl env cache url segment sv force sc).lead = some l →
      l.company.country = storeCountry env.store) ∧
    (∀ c hd, truthyS c.country = true → (hunterFill c hd).country = c.country) ∧
    (∀ c found, truthyS c.country = true → (enrichCompany c found).country = c.country) ∧
    (∀ c t, truthyS c.country = true → (tldFallback c t).country = c.country) := by
  refine ⟨?_, hunterFill_country_truthy, enrichCompany_country_truthy,
    fun c t h => by rw [tldFallback_country_truthy c t h]⟩
  intro l hl
  rw [processUrl_lead_company env cache url segment sv force sc l hl]
  unfold companyFinal
  have h1 : (companyAfterHunter env url segment).country = storeCountry env.store := by
    unfold companyAfterHunter
    rw [hunterFill_country_truthy _ _ (by rw [buildCompany_country]; exact hts),
      buildCompany_country]
  have h2 : (companyAfterLinkedIn env url segment).country = storeCountry env.store := by
    unfold companyAfterLinkedIn
    split
    · rw [enrichCompany_country_truthy _ _ (by rw [h1]; exact hts), h1]
    · exact h1
  rw [tldFallback_country_truthy _ _ (by rw [h2]; exact hts), h2]

/-- C8 (witness): a concrete run where the store markup already produced GB;
neither the Hunter country (US) nor the LinkedIn country (FR) nor the TLD
(DE) replaces it. -/
theorem C8_country_set_if_empty_witness :
    truthyS (storeCountry envC8.store) = true ∧
    ((processUrl envC8 [] (pyStr "myshop.com") none true false (mkLeadScorer 50 none)).lead.map
      (fun l => l.company.country)) = some (storeCountry envC8.store) := by
  constructor
  · decide
  · cases hl : (processUrl envC8 [] (pyStr "myshop.com") none true false
      (mkLeadScorer 50 none)).lead with
    | none => exact absurd hl (by decide)
    | some l =>
      simp only [Option.map_some']
      rw [(C8_country_set_if_empty envC8 [] (pyStr "myshop.com") none true false
        (mkLeadScorer 50 none) (by decide)).1 l hl]

/-! ### C1: country priority -/

theorem hunterData_some {env : PipelineEnv} {c : Company} {url : PyStr} {h' : HunterData}
    (hh : hunterData env c url = some h') : env.hunterOutcome = .ok h' := by
  unfold hunterData at hh
  split at hh
  · cases henv : env.hunterOutcome with
    | ok h2 =>
      rw [henv] at hh
      simp only [Option.some.injEq] at hh
      rw [hh]
    | error e =>
      rw [henv] at hh
      simp at hh
  · simp at hh

theorem enrichCountry_mainAddress (c : Company) (ld : LinkedInData)
    (hc : truthyS c.country = false) (hd : ld.mainAddress_isDict = true)
    (hm : truthyS ld.mainAddress_country = true) :
    (enrichCountry c ld).country = ld.mainAddress_country := by
  unfold enrichCountry
  rw [hc, hd]
  simp [hm]

theorem enrichCompany_country_mainAddress (c : Company) (ld : LinkedInData)
    (hc : truthyS c.country = false) (hd : ld.mainAddress_isDict = true)
    (hm : truthyS ld.mainAddress_country = true) :
    (enrichCompany c (some ld)).country = ld.mainAddress_country := by
  show (enrichCountry (enrichBasics c ld) ld).country = ld.mainAddress_country
  exact enrichCountry_mainAddress _ ld (by rw [enrichBasics_country]; exact hc) hd hm

/-- C1 (counterexample): a `.co.uk` store whose page markup and currency hint
yield nothing and whose LinkedIn record says US resolves to GB — the
TLD-derived country, computed inside the store-level detection, wins over the
professional-network value. -/
theorem C1_counterexample :
    envC1.store.schema_country = none ∧
    envC1.store.currency_country = none ∧
    (match envC1.linkedinFound with
      | .ok (some ld) => ld.mainAddress_country
      | _ => none) = some (pyStr "US") ∧
    ((processUrl envC1 [] (pyStr "shop.example.co.uk") none true true
        (mkLeadScorer 50 none)).lead.map (fun l => l.company.country)) =
      some (some (pyStr "GB")) := by
  refine ⟨rfl, rfl, rfl, ?_⟩
  decide

/-- C1 (amended): the global country priority is structured page markup →
currency hint → TLD heuristic (all inside the store-level detection) → Hunter
country → professional-network registered address → TLD again as the final
fallback.  In particular the professional-network country is only adopted
when the page markup, the currency hint, the TLD heuristic AND the Hunter
country all yield nothing; in that case the resolved country is exactly the
network's `mainAddress.addressCountry`. -/
theorem C1_country_priority (env : PipelineEnv) (cache : Cache) (url : PyStr)
    (segment : Option Segment) (sv force : Bool) (sc : LeadScorer)
    (h1 : truthyS env.store.schema_country = false)
    (h2 : truthyS env.store.currency_country = false)
    (h3 : truthyS env.store.tld_country = false)
    (h4 : ∀ hd, env.hunterOutcome = .ok hd → truthyS hd.country = false)
    (ld : LinkedInData)
    (h5 : env.linkedinFound = .ok (some ld))
    (h6 : ld.mainAddress_isDict = true)
    (h7 : truthyS ld.mainAddress_country = true) :
    ∀ l, (processUrl env cache url segment sv force sc).lead = some l →
      l.company.country = ld.mainAddress_country := by
  intro l hl
  rw [processUrl_lead_company env cache url segment sv force sc l hl]
  have hstore : storeCountry env.store = none := by
    simp [storeCountry, detect_country, h1, h2, h3]
  have hah : (companyAfterHunter env url segment).country = none := by
    unfold companyAfterHunter
    rw [hunterFill_country_skip _ _ (fun h' hh => h4 h' (hunterData_some hh)),
      buildCompany_country, hstore]
  have hen : (companyAfterLinkedIn env url segment).country = ld.mainAddress_country := by
    unfold companyAfterLinkedIn
    rw [h5]
    exact enrichCompany_country_mainAddress _ ld (by rw [hah]; rfl) h6 h7
  unfold companyFinal
  rw [tldFallback_country_truthy _ _ (by rw [hen]; exact h7), hen]

/-- C1 (witness): with page markup, currency, TLD and Hunter all silent, the
LinkedIn country US is the resolved country. -/
theorem C1_country_priority_witness :
    ((processUrl envC1W [] (pyStr "shop.example.com") none true true
        (mkLeadScorer 50 none)).lead.map (fun l => l.company.country)) =
      some (some (pyStr "US")) := by
  cases hl : (processUrl envC1W [] (pyStr "shop.example.com") none true true
      (mkLeadScorer 50 none)).lead with
  | none => exact absurd hl (by decide)
  | some l =>
    simp only [Option.map_some']
    rw [C1_country_priority envC1W [] (pyStr "shop.example.com") none true true
      (mkLeadScorer 50 none) (by decide) (by decide) (by decide)
      (by intro hd hh; cases hh)
      { linkedInUrl := none, numberOfEmployees := none, employeeCount := none,
        employee_count_f := none, industryCap := none, industry := none,
        description := none, foundedParsed := none, mainAddress_isDict := true,
        mainAddress_country := some (pyStr "US"), headquarters := none,
        website := none, companyUrl := none }
      rfl (by decide) (by decide) l hl]

/-! ### C2: decision-maker cascade -/

theorem dedupByName_nodup :
    ∀ (l : List DecisionMaker) (seen : List PyStr),
      List.Nodup ((dedupByName l seen).map (fun d => pyLower d.name)) ∧
      ∀ d ∈ dedupByName l seen, seen.contains (pyLower d.name) = false := by
  intro l
  induction l with
  | nil =>
    intro seen
    constructor
    · simp [dedupByName]
    · intro d hd
      simp [dedupByName] at hd
  | cons dm rest ih =>
    intro seen
    by_cases hc : seen.contains (pyLower dm.name) = true
    · simp only [dedupByName, hc, if_true]
      exact ih seen
    · rw [Bool.not_eq_true] at hc
      simp only [dedupByName, hc, Bool.false_eq_true, if_false]
      have ihr := ih (pyLower dm.name :: seen)
      refine ⟨?_, ?_⟩
      · simp only [List.map_cons, List.nodup_cons]
        refine ⟨?_, ihr.1⟩
        intro hmem
        obtain ⟨d, hd, he⟩ := List.mem_map.mp hmem
        have h2 := ihr.2 d hd
        rw [List.contains_cons] at h2
        simp only [Bool.or_eq_false_iff, beq_eq_false_iff_ne, ne_eq] at h2
        exact h2.1 he
      · intro d hd
        rcases List.mem_cons.mp hd with rfl | hd
        · exact hc
        · have h2 := ihr.2 d hd
          rw [List.contains_cons] at h2
          simp only [Bool.or_eq_false_iff] at h2
          exact h2.2

theorem findDMsFromWebsite_spec (schemaDM : Option DecisionMaker)
    (scrape : PyStr → List DecisionMaker) :
    (findDMsFromWebsite schemaDM scrape).length ≤ 5 ∧
    List.Nodup ((findDMsFromWebsite schemaDM scrape).map (fun d => pyLower d.name)) := by
  constructor
  · unfold findDMsFromWebsite
    exact List.length_take_le _ _
  · unfold findDMsFromWebsite
    rw [List.map_take]
    exact List.Nodup.sublist (List.take_sublist _ _)
      ((dedupByName_nodup (gatherTeam scrape TEAM_PAGE_PATHS
        (match schemaDM with | some dm => [dm] | none => [])) []).1)

/-- C2 (counterexample): the LinkedIn stage does not deduplicate its
candidates by normalized name — two employee records with the same name are
returned as two decision makers with the same normalized name. -/
theorem C2_counterexample :
    ¬ List.Nodup
      ((findDecisionMakersLI
          { name := pyStr "Acme", website := pyStr "acme.com",
            linkedin_url := some (pyStr "https://linkedin.com/company/acme") }
          [{ name := some (pyStr "Jane Doe"), title := some (pyStr "CEO"),
             linkedInUrl := none, location := none },
           { name := some (pyStr "Jane Doe"), title := some (pyStr "CEO"),
             linkedInUrl := none, location := none }]).map
        (fun d => pyLower d.name)) := by
  decide

/-- C2 (amended): the cascade stops at the first stage producing a decision
maker; only the About/Team-page stage deduplicates its candidates (by
lower-cased name) and caps them at 5.  The LinkedIn stage maps employee
records one-to-one without deduplication, the Hunter stage filters
executives without deduplication and the pipeline takes each stage's first
candidate, and the store-email fallback yields a single placeholder. -/
theorem C2_cascade_structure (env : PipelineEnv) (c : Company) (hd : Option HunterData) :
    (∀ d, dmStage1 env c = some d → dmCascade env c hd = some d) ∧
    (dmStage1 env c = none → ∀ d, dmStage2 hd = some d → dmCascade env c hd = some d) ∧
    (dmStage1 env c = none → dmStage2 hd = none → ∀ d, dmStage3 env = some d →
      dmCascade env c hd = some d) ∧
    (dmStage1 env c = none → dmStage2 hd = none → dmStage3 env = none →
      dmCascade env c hd = dmStage4 env) ∧
    (findDMsFromWebsite env.altSchemaDM env.altScrape).length ≤ 5 ∧
    List.Nodup ((findDMsFromWebsite env.altSchemaDM env.altScrape).map
      (fun d => pyLower d.name)) := by
  refine ⟨?_, ?_, ?_, ?_, (findDMsFromWebsite_spec _ _).1, (findDMsFromWebsite_spec _ _).2⟩
  · intro d h1
    unfold dmCascade
    rw [h1]
  · intro h1 d h2
    unfold dmCascade
    rw [h1, h2]
  · intro h1 h2 d h3
    unfold dmCascade
    rw [h1, h2, h3]
  · intro h1 h2 h3
    unfold dmCascade
    rw [h1, h2, h3]

/-- C2 (witness): in the `envC2` scenario the first stage yields Jane Doe and
the cascade returns her. -/
theorem C2_cascade_structure_witness :
    dmStage1 envC2 companyC2 =
      some { name := pyStr "Jane Doe", title := some (pyStr "CEO"),
             linkedin_url := some (pyStr "https://linkedin.com/in/janedoe"),
             location := none } ∧
    dmCascade envC2 companyC2 none =
      some { name := pyStr "Jane Doe", title := some (pyStr "CEO"),
             linkedin_url := some (pyStr "https://linkedin.com/in/janedoe"),
             location := none } := by
  constructor
  · decide
  · exact (C2_cascade_structure envC2 companyC2 none).1 _ (by decide)

/-! ### C10: Hunter-stage email verification -/

/-- C10: a Strategy-2 decision maker has `email_verified` set exactly when the
Hunter confidence exceeds 80 — `mkHunterDM` consults no deliverability
oracle — and a decision maker that already has a truthy email with
`email_verified` set passes the email-resolution step unchanged, for every
email-lookup outcome. -/
theorem C10_hunter_email_verified (env : PipelineEnv) (domOK : Bool)
    (hd : HunterData) (d : HunterDM) (rest : List HunterDM)
    (hds : hunterDecisionMakers hd = d :: rest)
    (dm : DecisionMaker) (he : truthyS dm.email = true) (hv : dm.email_verified = true) :
    dmStage2 (some hd) = some (mkHunterDM d) ∧
    ((mkHunterDM d).email_verified = true ↔ 80 < d.confidence) ∧
    emailStep env domOK dm = dm ∧
    (∀ api deliv, enrichDecisionMaker dm api deliv = dm) := by
  refine ⟨?_, ?_, ?_, ?_⟩
  · show (match hunterDecisionMakers hd with
      | d :: _ => some (mkHunterDM d)
      | [] => none) = some (mkHunterDM d)
    rw [hds]
  · simp [mkHunterDM]
  · unfold emailStep
    rw [he, hv]
    simp
  · intro api deliv
    unfold enrichDecisionMaker
    rw [he, hv]
    simp

/-- C10 (witness): concrete Hunter data with confidence 95; the built
decision maker is verified and the email step leaves it unchanged even
though the environment's lookup would return a different address. -/
theorem C10_hunter_email_verified_witness :
    hunterDecisionMakers hdC10 = [dmHC10] ∧
    dmStage2 (some hdC10) = some (mkHunterDM dmHC10) ∧
    (mkHunterDM dmHC10).email_verified = true ∧
    emailStep envC10 true (mkHunterDM dmHC10) = mkHunterDM dmHC10 := by
  have h := C10_hunter_email_verified envC10 true hdC10 dmHC10 [] (by decide)
    (mkHunterDM dmHC10) (by decide) (by decide)
  exact ⟨by decide, h.1, h.2.1.mpr (by decide), h.2.2.1⟩

end GoUP
